import Mathlib

/-!
Shallow embedding of `examples/mcp-agent/agent.py` (skills-kit repository).

External, library-provided behaviour is abstracted:
* UTF-8 decoding (`bytes.decode("utf-8")`) is a parameter
  `decodeUtf8 : List Nat → Option String` (`none` models a raised
  `UnicodeDecodeError`); the `base64.b64encode`/`b64decode` round trip on the
  stored `data` field is transparent, so attachments store raw bytes.
* JSON parsing (`json.loads`) is a parameter
  `parseJson : String → Option JValue` (`none` models a raised error).
* The filesystem, `pathlib` name/absolute-path computation and the
  `mimetypes.guess_type` table are parameters of `load_file`.
* An MCP session is modelled by the results of the two calls the agent makes
  on it: `list_tools` (`none` = the call raises) and `call_tool`
  (`none` = the call raises).
-/

namespace McpAgent

/-- Python `str.strip()` with no arguments: removes leading and trailing
whitespace. Implemented structurally over the character list so that it
evaluates inside the kernel. -/
def pyStrip (s : String) : String :=
  ⟨((s.data.dropWhile Char.isWhitespace).reverse.dropWhile Char.isWhitespace).reverse⟩

/-- Python `s.startswith(pre)`, implemented structurally over character
lists. -/
def pyStartsWith (s pre : String) : Bool := pre.data.isPrefixOf s.data

/-- Python `s.endswith(suf)`, implemented structurally over character
lists. -/
def pyEndsWith (s suf : String) : Bool := suf.data.isSuffixOf s.data

/-- Structured value produced by `json.loads`: the payloads the agent
manipulates. Numbers are modelled as integers; no claim depends on
numeric values. -/
inductive JValue where
  | null : JValue
  | bool (b : Bool) : JValue
  | num (n : Int) : JValue
  | str (s : String) : JValue
  | arr (items : List JValue) : JValue
  | obj (fields : List (String × JValue)) : JValue

/-- Python `isinstance(payload, dict)` for a parsed JSON value. -/
def JValue.isDict : JValue → Bool
  | .obj _ => true
  | _ => false

/-- Python `isinstance(payload, list)` for a parsed JSON value. -/
def JValue.isList : JValue → Bool
  | .arr _ => true
  | _ => false

/-- Attachment record built by `load_file`: filename, mime type, content
bytes (the base64 encoding in the Python dict is transparent), size and
absolute path. -/
structure Attachment where
  filename : String
  mime_type : String
  data : List Nat
  size : Nat
  path : String

/-- Embedding of `load_file` (agent.py lines 37-56). `guessType` is
`mimetypes.guess_type`, `pathName` is `Path(p).name`, `absPath` is
`str(Path(p).absolute())`, and `fs` maps an existing path to its content
bytes (`none` = `path.exists()` is false). `Except.error` carries the
`FileNotFoundError` message. -/
def load_file (guessType : String → Option String) (pathName : String → String)
    (absPath : String → String) (fs : String → Option (List Nat))
    (file_path : String) : Except String Attachment :=
  match fs file_path with
  | none => .error ("File not found: " ++ file_path)
  | some content =>
      let mime_type := match guessType file_path with
        | none => "application/octet-stream"
        | some m => m
      .ok { filename := pathName file_path
            mime_type := mime_type
            data := content
            size := content.length
            path := absPath file_path }

/-- Embedding of `format_file_for_prompt` (agent.py lines 59-70): textual
attachments (mime `text/*` or `application/json`) that decode as UTF-8 are
rendered as a delimited block; everything else, or a decode failure, falls
through to the one-line metadata rendering. -/
def format_file_for_prompt (decodeUtf8 : List Nat → Option String)
    (file_info : Attachment) : String :=
  let textual := pyStartsWith file_info.mime_type "text/"
      || file_info.mime_type == "application/json"
  let block : Option String :=
    if textual then
      (decodeUtf8 file_info.data).map (fun content =>
        "\n--- File: " ++ file_info.filename ++ " ---\n" ++ content
          ++ "\n--- End of " ++ file_info.filename ++ " ---\n")
    else none
  match block with
  | some s => s
  | none =>
      "\n[Attached file: " ++ file_info.filename ++ " (" ++ file_info.mime_type
        ++ ", " ++ toString file_info.size ++ " bytes)]\n"

/-- Embedding of `build_prompt_with_files` (agent.py lines 73-79). -/
def build_prompt_with_files (decodeUtf8 : List Nat → Option String)
    (prompt : String) (files : List Attachment) : String :=
  if files.isEmpty then prompt
  else
    let file_context :=
      String.intercalate "\n" (files.map (format_file_for_prompt decodeUtf8))
    file_context ++ "\n" ++ prompt

/-- Python condition `used_filenames and filename in used_filenames`
(agent.py line 88): skips only when the optional set is supplied, truthy
(non-empty) and contains the filename. -/
def usedSkip (used_filenames : Option (List String)) (filename : String) : Bool :=
  match used_filenames with
  | none => false
  | some s => !s.isEmpty && s.contains filename

/-- Embedding of `extract_json_payload` (agent.py lines 82-98): first
attachment, in order, that is not skipped by the used-set check, is
JSON-typed or `.json`-named, and whose bytes decode and parse; failures
continue the scan. -/
def extract_json_payload (decodeUtf8 : List Nat → Option String)
    (parseJson : String → Option JValue) (files : List Attachment)
    (used_filenames : Option (List String)) : Option (JValue × String) :=
  match files with
  | [] => none
  | file_info :: rest =>
      let filename := file_info.filename
      if usedSkip used_filenames filename then
        extract_json_payload decodeUtf8 parseJson rest used_filenames
      else
        let is_json := file_info.mime_type == "application/json"
            || pyEndsWith filename ".json"
        if !is_json then
          extract_json_payload decodeUtf8 parseJson rest used_filenames
        else
          match decodeUtf8 file_info.data >>= parseJson with
          | some v => some (v, filename)
          | none => extract_json_payload decodeUtf8 parseJson rest used_filenames

/-- Python `schema.get("type")` on a dict modelled as an association list. -/
def dictGet (key : String) (d : List (String × JValue)) : Option JValue :=
  (d.find? (fun kv => kv.1 == key)).map (fun kv => kv.2)

/-- Embedding of `payload_matches_schema` (agent.py lines 101-108). -/
def payload_matches_schema (schema : List (String × JValue))
    (payload : JValue) : Bool :=
  match dictGet "type" schema with
  | some (.str "object") => payload.isDict
  | some (.str "array") => payload.isList
  | _ => true

/-- Abstraction of an arbitrary Python value sitting in
`result.structuredContent`, recording the outcomes of the only two
operations applied to it: `json.dumps(v, indent=2)` (`none` = raises) and
`str(v)`. -/
structure StructuredValue where
  dumpsIndent2 : Option String
  strRep : String

/-- One item of `result.content`; `text` models `getattr(item, "text", None)`. -/
structure ContentItem where
  text : Option String

/-- Abstraction of an MCP `CallToolResult` as consumed by
`format_tool_result`: optional structured content, content items (the
Python `or []` collapse of a missing/None list is pre-applied), and the
generic `str(result)` rendering. -/
structure CallToolResult where
  structuredContent : Option StructuredValue
  content : List ContentItem
  strRep : String

/-- Embedding of `format_tool_result` (agent.py lines 111-127): structured
content first (dumps, falling back to `str`), then every non-empty text,
joined by newlines and stripped; empty output falls back to `str(result)`. -/
def format_tool_result (result : CallToolResult) : String :=
  let text_parts : List String :=
    (match result.structuredContent with
     | some s =>
        [match s.dumpsIndent2 with
         | some j => j
         | none => s.strRep]
     | none => [])
    ++ result.content.filterMap (fun item =>
        match item.text with
        | some t => if t == "" then none else some t
        | none => none)
  let output := pyStrip (String.intercalate "\n" text_parts)
  if output == "" then result.strRep else output

/-- Advertised MCP tool: its name and declared input schema;
`inputSchema := none` models a missing/None attribute, collapsed to `{}`
by `getattr(tool, "inputSchema", {}) or {}`. -/
structure Tool where
  name : String
  inputSchema : Option (List (String × JValue))

/-- Behaviour of one established MCP session, recorded as the results of
the calls the agent performs on it: `list_tools` (`none` = the request
raises) and `call_tool` per tool name and payload (`none` = the
invocation raises). -/
structure Session where
  list_tools : Option (List Tool)
  call_tool : String → JValue → Option CallToolResult

/-- The MCP client: `active_sessions` is `client.get_all_active_sessions()`
(the session registry) and `all_sessions` is the registry
`client.create_all_sessions()` would establish, one session per configured
server. -/
structure Client where
  active_sessions : List (String × Session)
  all_sessions : List (String × Session)

/-- Session registry used by the orchestrator: the active sessions, or the
freshly created ones when the registry is empty (agent.py lines 141-143). -/
def effective_sessions (client : Client) : List (String × Session) :=
  if client.active_sessions.isEmpty then client.all_sessions
  else client.active_sessions

/-- Flattening loop of agent.py lines 145-152: every session is asked for
its tool list; a raising session contributes nothing and the loop
continues. -/
def list_session_tools (sessions : List (String × Session)) :
    List (String × Session × Tool) :=
  (sessions.map (fun ss =>
    match ss.2.list_tools with
    | none => []
    | some ts => ts.map (fun t => (ss.1, ss.2, t)))).flatten

/-- Observable session-layer actions of one orchestrator run, for frame
reasoning. -/
inductive Event where
  | createSessions : Event
  | listTools (server : String) : Event
  | callTool (server : String) (tool : String) : Event
deriving DecidableEq

/-- Result of `maybe_auto_call_tool`: `abstain` is Python `None`,
`success s` a returned string, `raised` a propagated `call_tool`
exception. -/
inductive AutoOutcome where
  | abstain : AutoOutcome
  | success (output : String) : AutoOutcome
  | raised : AutoOutcome
deriving DecidableEq

/-- Full effect of one `maybe_auto_call_tool` run: its outcome together
with the client registry, the attachment list and the used-filename set as
left behind, and the trace of session-layer actions performed. -/
structure AutoResult where
  outcome : AutoOutcome
  client : Client
  files : List Attachment
  used : Option (List String)
  trace : List Event

/-- Part of `maybe_auto_call_tool` after payload extraction succeeded
(agent.py lines 141-166): establish sessions only when the registry is
empty, flatten the tool lists, abstain unless exactly one tool exists,
abstain on schema mismatch, call the tool (a raise propagates), and only
on success mark the filename used. -/
def auto_call_with_payload (client : Client) (files : List Attachment)
    (used_filenames : Option (List String)) (payload : JValue)
    (filename : String) : AutoResult :=
  let created := client.active_sessions.isEmpty
  let sessions := effective_sessions client
  let client' := if created then
      { client with active_sessions := client.all_sessions }
    else client
  let trace0 := (if created then [Event.createSessions] else [])
    ++ sessions.map (fun ss => Event.listTools ss.1)
  match list_session_tools sessions with
  | [(server_name, session, tool)] =>
      let input_schema := match tool.inputSchema with
        | none => []
        | some s => s
      if !payload_matches_schema input_schema payload then
        ⟨.abstain, client', files, used_filenames, trace0⟩
      else
        match session.call_tool tool.name payload with
        | none =>
            ⟨.raised, client', files, used_filenames,
              trace0 ++ [Event.callTool server_name tool.name]⟩
        | some result =>
            ⟨.success (format_tool_result result), client', files,
              used_filenames.map (fun u => u.insert filename),
              trace0 ++ [Event.callTool server_name tool.name]⟩
  | _ => ⟨.abstain, client', files, used_filenames, trace0⟩

/-- Embedding of `maybe_auto_call_tool` (agent.py lines 130-166): extract a
payload (abstain with no session activity if none), then run the
fast-path decision on it. -/
def maybe_auto_call_tool (decodeUtf8 : List Nat → Option String)
    (parseJson : String → Option JValue) (client : Client)
    (files : List Attachment) (used_filenames : Option (List String)) :
    AutoResult :=
  match extract_json_payload decodeUtf8 parseJson files used_filenames with
  | none => ⟨.abstain, client, files, used_filenames, []⟩
  | some (payload, filename) =>
      auto_call_with_payload client files used_filenames payload filename

/-- Interactive-session state mutated by the REPL commands: the attachment
list and the used-filename set (agent.py lines 33-34). -/
structure InteractiveState where
  attached_files : List Attachment
  auto_pass_used : List String

/-- Embedding of the `/clear` command handler (agent.py lines 307-309): it
empties `attached_files` and touches nothing else. -/
def clear_command (st : InteractiveState) : InteractiveState :=
  { st with attached_files := [] }

/-- Embedding of a successful `/attach <file>` handler (agent.py lines
288-296): the loaded attachment is appended to `attached_files`. -/
def attach_command (st : InteractiveState) (file_info : Attachment) :
    InteractiveState :=
  { st with attached_files := st.attached_files ++ [file_info] }

/-- Eligibility-and-parse outcome of one attachment as scanned by
`extract_json_payload`: `none` when the attachment is skipped (used, not
JSON-flavoured, or failing to decode/parse), otherwise the pair it would
return. -/
def json_candidate (decodeUtf8 : List Nat → Option String)
    (parseJson : String → Option JValue) (used_filenames : Option (List String))
    (file_info : Attachment) : Option (JValue × String) :=
  if usedSkip used_filenames file_info.filename then none
  else if !(file_info.mime_type == "application/json"
      || pyEndsWith file_info.filename ".json") then none
  else (decodeUtf8 file_info.data >>= parseJson).map
    (fun v => (v, file_info.filename))

theorem extract_json_payload_cons (decodeUtf8 : List Nat → Option String)
    (parseJson : String → Option JValue) (used_filenames : Option (List String))
    (f : Attachment) (rest : List Attachment) :
    extract_json_payload decodeUtf8 parseJson (f :: rest) used_filenames =
      match json_candidate decodeUtf8 parseJson used_filenames f with
      | some r => some r
      | none => extract_json_payload decodeUtf8 parseJson rest used_filenames := by
  cases h1 : usedSkip used_filenames f.filename with
  | true => simp [extract_json_payload, json_candidate, h1]
  | false =>
    cases h2 : f.mime_type == "application/json" || pyEndsWith f.filename ".json" with
    | false => simp [extract_json_payload, json_candidate, h1, h2]
    | true =>
      cases h3 : decodeUtf8 f.data >>= parseJson with
      | none => simp [extract_json_payload, json_candidate, h1, h2, h3]
      | some v => simp [extract_json_payload, json_candidate, h1, h2, h3]

theorem extract_json_payload_some (decodeUtf8 : List Nat → Option String)
    (parseJson : String → Option JValue) (used_filenames : Option (List String)) :
    ∀ (files : List Attachment) (v : JValue) (fn : String),
      extract_json_payload decodeUtf8 parseJson files used_filenames = some (v, fn) →
      ∃ pre f post, files = pre ++ f :: post
        ∧ json_candidate decodeUtf8 parseJson used_filenames f = some (v, fn)
        ∧ ∀ g ∈ pre, json_candidate decodeUtf8 parseJson used_filenames g = none := by
  intro files
  induction files with
  | nil => intro v fn h; simp [extract_json_payload] at h
  | cons f rest ih =>
    intro v fn h
    rw [extract_json_payload_cons] at h
    cases hc : json_candidate decodeUtf8 parseJson used_filenames f with
    | some r =>
      simp only [hc] at h
      exact ⟨[], f, rest, rfl, by rw [hc, h], by simp⟩
    | none =>
      simp only [hc] at h
      obtain ⟨pre, g, post, heq, hg, hpre⟩ := ih v fn h
      refine ⟨f :: pre, g, post, by rw [heq]; rfl, hg, ?_⟩
      intro g' hg'
      rcases List.mem_cons.mp hg' with h' | h'
      · rw [h']; exact hc
      · exact hpre g' h'

theorem extract_json_payload_none_iff (decodeUtf8 : List Nat → Option String)
    (parseJson : String → Option JValue) (used_filenames : Option (List String)) :
    ∀ files : List Attachment,
      (extract_json_payload decodeUtf8 parseJson files used_filenames = none ↔
        ∀ f ∈ files, json_candidate decodeUtf8 parseJson used_filenames f = none) := by
  intro files
  induction files with
  | nil => simp [extract_json_payload]
  | cons f rest ih =>
    rw [extract_json_payload_cons]
    cases hc : json_candidate decodeUtf8 parseJson used_filenames f with
    | some r => simp [hc]
    | none => simp [hc, ih]

theorem json_candidate_not_used (decodeUtf8 : List Nat → Option String)
    (parseJson : String → Option JValue) (s : List String) (f : Attachment)
    (v : JValue) (fn : String)
    (h : json_candidate decodeUtf8 parseJson (some s) f = some (v, fn)) :
    fn ∉ s := by
  intro hmem
  cases h1 : usedSkip (some s) f.filename with
  | true =>
    simp [json_candidate, h1] at h
  | false =>
    have hfn : fn = f.filename := by
      cases h2 : f.mime_type == "application/json" || pyEndsWith f.filename ".json" with
      | false => simp [json_candidate, h1, h2] at h
      | true =>
        cases h3 : decodeUtf8 f.data >>= parseJson with
        | none => simp [json_candidate, h1, h2, h3] at h
        | some w =>
          simp only [json_candidate, h1, h2, h3] at h
          simp at h
          exact h.2.symm
    rw [hfn] at hmem
    have hne : s ≠ [] := by
      intro hnil; rw [hnil] at hmem; exact absurd hmem (List.not_mem_nil _)
    have hcont : s.contains f.filename = true := List.elem_iff.mpr hmem
    have hemp : s.isEmpty = false := by simp [List.isEmpty_iff, hne]
    have : usedSkip (some s) f.filename = true := by
      simp [usedSkip, hcont, hemp]
      exact hmem
    rw [h1] at this
    exact Bool.false_ne_true this

/-- C3: the Payload Extractor returns the first attachment, in attachment
order, that passes the used-set check, is JSON-typed or `.json`-named, and
decodes and parses; all earlier attachments fail one of those checks; it
returns `none` exactly when every attachment fails; and it never returns a
filename present in the supplied used set. Totality of
`extract_json_payload` embeds "never raises". -/
theorem extract_json_payload_first_eligible (decodeUtf8 : List Nat → Option String)
    (parseJson : String → Option JValue) (files : List Attachment)
    (used_filenames : Option (List String)) :
    (∀ v fn,
      extract_json_payload decodeUtf8 parseJson files used_filenames = some (v, fn) →
      ∃ pre f post, files = pre ++ f :: post
        ∧ json_candidate decodeUtf8 parseJson used_filenames f = some (v, fn)
        ∧ ∀ g ∈ pre, json_candidate decodeUtf8 parseJson used_filenames g = none)
    ∧ (extract_json_payload decodeUtf8 parseJson files used_filenames = none ↔
        ∀ f ∈ files, json_candidate decodeUtf8 parseJson used_filenames f = none)
    ∧ (∀ v fn s, used_filenames = some s →
        extract_json_payload decodeUtf8 parseJson files used_filenames = some (v, fn) →
        fn ∉ s) := by
  refine ⟨extract_json_payload_some decodeUtf8 parseJson used_filenames files,
    extract_json_payload_none_iff decodeUtf8 parseJson used_filenames files, ?_⟩
  intro v fn s hs h
  subst hs
  obtain ⟨pre, f, post, -, hf, -⟩ :=
    extract_json_payload_some decodeUtf8 parseJson (some s) files v fn h
  exact json_candidate_not_used decodeUtf8 parseJson s f v fn hf

/-- Content bytes of the three-character text "[1]". -/
def demoBytes : List Nat := [91, 49, 93]

/-- Concrete instantiation of the UTF-8 decoder for witnesses: decodes the
bytes of "[1]" and rejects everything else. -/
def demoDecode : List Nat → Option String :=
  fun bs => if bs = demoBytes then some "[1]" else none

/-- Parsed value of the JSON text "[1]". -/
def demoPayload : JValue := .arr [.num 1]

/-- Concrete instantiation of the JSON parser for witnesses: parses "[1]"
and rejects everything else. -/
def demoParse : String → Option JValue :=
  fun s => if s = "[1]" then some demoPayload else none

/-- A JSON attachment named `a.json` holding the text "[1]". -/
def demoAttachment : Attachment :=
  { filename := "a.json", mime_type := "application/json", data := demoBytes,
    size := 3, path := "/tmp/a.json" }

theorem extract_json_payload_first_eligible_witness :
    "a.json" ∉ ["b.json"] :=
  (extract_json_payload_first_eligible demoDecode demoParse [demoAttachment]
    (some ["b.json"])).2.2 demoPayload "a.json" ["b.json"] rfl (by rfl)

/-- C4: the Schema Matcher accepts exactly per the declared `type`: for
`"object"` the verdict is whether the payload is a keyed mapping (every
sequence payload is rejected), for `"array"` whether it is an ordered
sequence (every mapping payload is rejected), and for any other or absent
declared type every payload is accepted. -/
theorem payload_matches_schema_spec (schema : List (String × JValue)) :
    (dictGet "type" schema = some (.str "object") →
      (∀ p, payload_matches_schema schema p = p.isDict)
      ∧ (∀ items, payload_matches_schema schema (.arr items) = false))
    ∧ (dictGet "type" schema = some (.str "array") →
      (∀ p, payload_matches_schema schema p = p.isList)
      ∧ (∀ fields, payload_matches_schema schema (.obj fields) = false))
    ∧ (dictGet "type" schema ≠ some (.str "object") →
       dictGet "type" schema ≠ some (.str "array") →
       ∀ p, payload_matches_schema schema p = true) := by
  refine ⟨?_, ?_, ?_⟩
  · intro h
    refine ⟨fun p => ?_, fun items => ?_⟩
    · unfold payload_matches_schema; rw [h]; rfl
    · unfold payload_matches_schema; rw [h]; rfl
  · intro h
    refine ⟨fun p => ?_, fun fields => ?_⟩
    · unfold payload_matches_schema; rw [h]; rfl
    · unfold payload_matches_schema; rw [h]; rfl
  · intro h1 h2 p
    unfold payload_matches_schema
    split
    · rename_i heq; exact absurd heq h1
    · rename_i heq; exact absurd heq h2
    · rfl

theorem payload_matches_schema_spec_witness :
    payload_matches_schema [("type", JValue.str "object")] (JValue.arr []) = false :=
  ((payload_matches_schema_spec [("type", JValue.str "object")]).1 rfl).2 []

/-- C9: the Attachment Loader fails exactly when the path does not resolve
to an existing file; otherwise the produced attachment records the file's
bytes, its size equals the length of those bytes, and the mime type is the
guessed one, defaulting to `application/octet-stream` when the guess
fails. -/
theorem load_file_spec (guessType : String → Option String)
    (pathName absPath : String → String) (fs : String → Option (List Nat))
    (file_path : String) :
    ((∃ e, load_file guessType pathName absPath fs file_path = .error e) ↔
      fs file_path = none)
    ∧ (∀ a, load_file guessType pathName absPath fs file_path = .ok a →
        a.size = a.data.length
        ∧ fs file_path = some a.data
        ∧ (guessType file_path = none → a.mime_type = "application/octet-stream")
        ∧ (∀ m, guessType file_path = some m → a.mime_type = m)) := by
  cases hfs : fs file_path with
  | none =>
    refine ⟨⟨fun _ => rfl,
      fun _ => ⟨"File not found: " ++ file_path, by simp [load_file, hfs]⟩⟩, ?_⟩
    intro a ha
    simp [load_file, hfs] at ha
  | some content =>
    refine ⟨⟨?_, ?_⟩, ?_⟩
    · rintro ⟨e, he⟩
      simp [load_file, hfs] at he
    · intro h
      exact absurd h (by simp)
    · intro a ha
      cases hg : guessType file_path with
      | none =>
        simp only [load_file, hfs, hg, Except.ok.injEq] at ha
        subst ha
        exact ⟨rfl, rfl, fun _ => rfl, fun m hm => absurd hm (by simp)⟩
      | some m0 =>
        simp only [load_file, hfs, hg, Except.ok.injEq] at ha
        subst ha
        exact ⟨rfl, rfl, fun h => absurd h (by simp), fun m hm => Option.some.inj hm⟩

/-- Filesystem instantiation for witnesses: only `/tmp/a.json` exists and
holds the bytes of "[1]". -/
def demoFs : String → Option (List Nat) :=
  fun p => if p = "/tmp/a.json" then some demoBytes else none

/-- Mime-guess instantiation for witnesses: the path `/tmp/a.json`
resolves to `application/json`, everything else is unresolvable. -/
def demoGuess : String → Option String :=
  fun p => if p = "/tmp/a.json" then some "application/json" else none

/-- Attachment produced by `load_file` on `/tmp/a.json` under `demoFs` and
`demoGuess` with identity path functions. -/
def demoLoaded : Attachment :=
  { filename := "/tmp/a.json", mime_type := "application/json",
    data := demoBytes, size := 3, path := "/tmp/a.json" }

theorem load_file_spec_witness :
    demoLoaded.size = demoLoaded.data.length
    ∧ demoFs "/tmp/a.json" = some demoLoaded.data :=
  ⟨((load_file_spec demoGuess id id demoFs "/tmp/a.json").2 demoLoaded rfl).1,
   ((load_file_spec demoGuess id id demoFs "/tmp/a.json").2 demoLoaded rfl).2.1⟩

/-- C7: the Prompt Composer renders a textual (mime `text/*` or JSON)
attachment whose bytes decode as the delimited content block; an
attachment whose decode fails, or whose type is not textual, becomes the
one-line metadata placeholder; the rendered blocks are joined in
attachment order by newlines and prepended to the free text; and an empty
attachment list leaves the free text unchanged. -/
theorem prompt_composer_spec (decodeUtf8 : List Nat → Option String)
    (prompt : String) :
    (∀ f content,
      (pyStartsWith f.mime_type "text/" = true ∨ f.mime_type = "application/json") →
      decodeUtf8 f.data = some content →
      format_file_for_prompt decodeUtf8 f =
        "\n--- File: " ++ f.filename ++ " ---\n" ++ content
          ++ "\n--- End of " ++ f.filename ++ " ---\n")
    ∧ (∀ f, decodeUtf8 f.data = none →
      format_file_for_prompt decodeUtf8 f =
        "\n[Attached file: " ++ f.filename ++ " (" ++ f.mime_type ++ ", "
          ++ toString f.size ++ " bytes)]\n")
    ∧ (∀ f,
      pyStartsWith f.mime_type "text/" = false → f.mime_type ≠ "application/json" →
      format_file_for_prompt decodeUtf8 f =
        "\n[Attached file: " ++ f.filename ++ " (" ++ f.mime_type ++ ", "
          ++ toString f.size ++ " bytes)]\n")
    ∧ build_prompt_with_files decodeUtf8 prompt [] = prompt
    ∧ (∀ files, files ≠ [] →
      build_prompt_with_files decodeUtf8 prompt files =
        String.intercalate "\n" (files.map (format_file_for_prompt decodeUtf8))
          ++ "\n" ++ prompt) := by
  refine ⟨?_, ?_, ?_, rfl, ?_⟩
  · intro f content htext hdec
    have ht : (pyStartsWith f.mime_type "text/"
        || (f.mime_type == "application/json")) = true := by
      rcases htext with h | h
      · simp [h]
      · simp [h]
    simp [format_file_for_prompt, ht, hdec]
  · intro f hdec
    cases ht : pyStartsWith f.mime_type "text/"
        || (f.mime_type == "application/json") with
    | true => simp [format_file_for_prompt, ht, hdec]
    | false => simp [format_file_for_prompt, ht]
  · intro f h1 h2
    have ht : (pyStartsWith f.mime_type "text/"
        || (f.mime_type == "application/json")) = false := by
      simp [h1, h2]
    simp [format_file_for_prompt, ht]
  · intro files hne
    have h : files.isEmpty = false := by simp [List.isEmpty_iff, hne]
    simp [build_prompt_with_files, h]

theorem prompt_composer_spec_witness :
    format_file_for_prompt demoDecode demoAttachment =
      "\n--- File: " ++ demoAttachment.filename ++ " ---\n" ++ "[1]"
        ++ "\n--- End of " ++ demoAttachment.filename ++ " ---\n" :=
  (prompt_composer_spec demoDecode "").1 demoAttachment "[1]" (Or.inr rfl) rfl

/-- Result Formatter as the spec words it: the structured part rendered as
indented JSON (its generic string form when not serializable), followed by
the text of every content item with non-empty text, joined by newlines and
trimmed; the response's generic string representation when the combination
is empty. -/
def result_formatter_spec (result : CallToolResult) : String :=
  let structuredPart : List String :=
    match result.structuredContent with
    | some s => [s.dumpsIndent2.getD s.strRep]
    | none => []
  let textPart : List String :=
    (result.content.map (fun item => item.text.getD "")).filter
      (fun t => !(t == ""))
  let combined := pyStrip (String.intercalate "\n" (structuredPart ++ textPart))
  if combined = "" then result.strRep else combined

theorem content_filterMap_eq_filter (items : List ContentItem) :
    items.filterMap (fun item =>
      match item.text with
      | some t => if t = "" then none else some t
      | none => none) =
    (items.map (fun item => item.text.getD "")).filter (fun t => !(t == "")) := by
  induction items with
  | nil => rfl
  | cons i rest ih =>
    cases hi : i.text with
    | none =>
      simp [List.filterMap_cons, List.filter_cons, hi]
      simpa using ih
    | some t =>
      by_cases hte : t = ""
      · simp [List.filterMap_cons, List.filter_cons, hi, hte]
        simpa using ih
      · simp [List.filterMap_cons, List.filter_cons, hi, hte]
        simpa using ih

/-- Demo response holding only structured content whose indented JSON
dump is the pretty-printed form of the mapping with single key `ok` and
value `true`. -/
def demoResultStructured : CallToolResult :=
  { structuredContent := some
      { dumpsIndent2 := some "\x7b\n  \"ok\": true\n\x7d",
        strRep := "\x7b'ok': True\x7d" },
    content := [], strRep := "CallToolResult()" }

/-- Demo response holding a single text item "hello" and no structured
content. -/
def demoResultHello : CallToolResult :=
  { structuredContent := none, content := [{ text := some "hello" }],
    strRep := "CallToolResult()" }

/-- Demo response with neither structured content nor text items. -/
def demoResultEmpty : CallToolResult :=
  { structuredContent := none, content := [], strRep := "CallToolResult()" }

/-- C8: the Result Formatter agrees everywhere with the spec-worded
priority rule (structured content as indented JSON with a generic-string
fallback, then every non-empty text item, joined and trimmed, with the
generic representation as last resort), and in particular: structured
content alone yields its pretty-printed JSON, a single text item "hello"
yields "hello", and an empty response yields the generic string form.
Totality of `format_tool_result` embeds "never raises". -/
theorem format_tool_result_correct :
    (∀ result, format_tool_result result = result_formatter_spec result)
    ∧ format_tool_result demoResultStructured = "\x7b\n  \"ok\": true\n\x7d"
    ∧ format_tool_result demoResultHello = "hello"
    ∧ format_tool_result demoResultEmpty = "CallToolResult()" := by
  refine ⟨?_, rfl, rfl, rfl⟩
  intro result
  cases hs : result.structuredContent with
  | none =>
    simp [format_tool_result, result_formatter_spec, hs,
      content_filterMap_eq_filter]
  | some s =>
    cases hd : s.dumpsIndent2 with
    | none =>
      simp [format_tool_result, result_formatter_spec, hs, hd,
        content_filterMap_eq_filter]
    | some j =>
      simp [format_tool_result, result_formatter_spec, hs, hd,
        content_filterMap_eq_filter]

theorem auto_call_with_payload_frame (client : Client) (files : List Attachment)
    (used_filenames : Option (List String)) (payload : JValue) (filename : String) :
    (auto_call_with_payload client files used_filenames payload filename).files = files
    ∧ (auto_call_with_payload client files used_filenames payload filename).client
      = (if client.active_sessions.isEmpty then
          { client with active_sessions := client.all_sessions }
        else client)
    ∧ ((auto_call_with_payload client files used_filenames payload filename).outcome
        = .abstain →
      (auto_call_with_payload client files used_filenames payload filename).used
        = used_filenames)
    ∧ ((auto_call_with_payload client files used_filenames payload filename).outcome
        = .raised →
      (auto_call_with_payload client files used_filenames payload filename).used
        = used_filenames)
    ∧ ((auto_call_with_payload client files used_filenames payload filename).used
        = used_filenames
      ∨ (auto_call_with_payload client files used_filenames payload filename).used
        = used_filenames.map (fun u => u.insert filename))
    ∧ (Event.createSessions
        ∈ (auto_call_with_payload client files used_filenames payload filename).trace
      ↔ client.active_sessions.isEmpty = true)
    ∧ ((list_session_tools (effective_sessions client)).length ≠ 1 →
      (auto_call_with_payload client files used_filenames payload filename).outcome
        = .abstain) := by
  unfold auto_call_with_payload
  dsimp only
  cases ht : list_session_tools (effective_sessions client) with
  | nil =>
    refine ⟨rfl, rfl, fun _ => rfl, ?_, Or.inl rfl, ?_, fun _ => rfl⟩
    · intro h; simp at h
    · cases hcr : client.active_sessions.isEmpty with
      | true => simp [hcr]
      | false => simp [hcr]
  | cons x xs =>
    cases xs with
    | nil =>
      obtain ⟨sn, se, t⟩ := x
      dsimp only
      cases hps : payload_matches_schema
          (match t.inputSchema with | none => [] | some s => s) payload with
      | false =>
        refine ⟨rfl, rfl, fun _ => rfl, ?_, Or.inl rfl, ?_, fun h => absurd rfl h⟩
        · intro h; simp at h
        · cases hcr : client.active_sessions.isEmpty with
          | true => simp [hcr]
          | false => simp [hcr]
      | true =>
        cases hc : se.call_tool t.name payload with
        | none =>
          refine ⟨rfl, rfl, ?_, fun _ => rfl, Or.inl rfl, ?_, fun h => absurd rfl h⟩
          · intro h; simp at h
          · cases hcr : client.active_sessions.isEmpty with
            | true => simp [hcr]
            | false => simp [hcr]
        | some result =>
          refine ⟨rfl, rfl, ?_, ?_, Or.inr rfl, ?_, fun h => absurd rfl h⟩
          · intro h; simp at h
          · intro h; simp at h
          · cases hcr : client.active_sessions.isEmpty with
            | true => simp [hcr]
            | false => simp [hcr]
    | cons y ys =>
      refine ⟨rfl, rfl, fun _ => rfl, ?_, Or.inl rfl, ?_, fun _ => rfl⟩
      · intro h; simp at h
      · cases hcr : client.active_sessions.isEmpty with
        | true => simp [hcr]
        | false => simp [hcr]

/-- Formatted output of a call returning one text item "ok". -/
def demoCallResult : CallToolResult :=
  { structuredContent := none, content := [{ text := some "ok" }],
    strRep := "CallToolResult()" }

/-- The single advertised tool of the demo server, declaring an array
input schema. -/
def demoTool : Tool :=
  { name := "run", inputSchema := some [("type", JValue.str "array")] }

/-- A session advertising no tools at all. -/
def sessionNoTools : Session :=
  { list_tools := some [], call_tool := fun _ _ => none }

/-- A session advertising exactly `demoTool`, whose invocation succeeds
with `demoCallResult`. -/
def sessionOneTool : Session :=
  { list_tools := some [demoTool],
    call_tool := fun n _ => if n = "run" then some demoCallResult else none }

/-- A session advertising exactly `demoTool`, whose invocation raises. -/
def sessionOneToolFail : Session :=
  { list_tools := some [demoTool], call_tool := fun _ _ => none }

/-- Client with an empty registry and three configured servers: two expose
zero tools and one exposes exactly one tool. -/
def demoMultiServerClient : Client :=
  { active_sessions := [],
    all_sessions := [("alpha", sessionNoTools), ("beta", sessionNoTools),
      ("skills", sessionOneTool)] }

/-- Client whose only active session exposes zero tools. -/
def demoNoToolClient : Client :=
  { active_sessions := [("alpha", sessionNoTools)],
    all_sessions := [("alpha", sessionNoTools)] }

/-- Client whose only active session exposes one tool whose invocation
raises. -/
def demoFailClient : Client :=
  { active_sessions := [("skills", sessionOneToolFail)],
    all_sessions := [("skills", sessionOneToolFail)] }

/-- C1: for every attachment list and used-filename set the orchestrator
abstains whenever the total number of tools discovered across all sessions
differs from 1; and the count is taken over all servers together: a
concrete client whose three servers expose zero, zero and one tool passes
the fast path and the run succeeds. -/
theorem auto_abstains_unless_one_tool :
    (∀ (decodeUtf8 : List Nat → Option String)
      (parseJson : String → Option JValue) (client : Client)
      (files : List Attachment) (used_filenames : Option (List String)),
      (list_session_tools (effective_sessions client)).length ≠ 1 →
      (maybe_auto_call_tool decodeUtf8 parseJson client files used_filenames).outcome
        = .abstain)
    ∧ (maybe_auto_call_tool demoDecode demoParse demoMultiServerClient
        [demoAttachment] (some [])).outcome = .success "ok" := by
  constructor
  · intro du pj client files used h
    cases hx : extract_json_payload du pj files used with
    | none => simp [maybe_auto_call_tool, hx]
    | some pf =>
      obtain ⟨payload, filename⟩ := pf
      simp only [maybe_auto_call_tool, hx]
      exact (auto_call_with_payload_frame client files used payload
        filename).2.2.2.2.2.2 h
  · rfl

theorem auto_abstains_unless_one_tool_witness :
    (maybe_auto_call_tool demoDecode demoParse demoNoToolClient [demoAttachment]
      (some [])).outcome = .abstain :=
  auto_abstains_unless_one_tool.1 demoDecode demoParse demoNoToolClient
    [demoAttachment] (some []) (by decide)

/-- C5: when the fast path reaches the invocation (payload extracted,
exactly one tool, schema accepted), a failing invocation propagates as the
`raised` outcome with the used-filename set unchanged, while a successful
one returns the formatted result and only then marks the extracted
filename as used. -/
theorem auto_invocation_failure_propagates
    (decodeUtf8 : List Nat → Option String) (parseJson : String → Option JValue)
    (client : Client) (files : List Attachment)
    (used_filenames : Option (List String)) (payload : JValue)
    (filename server_name : String) (session : Session) (tool : Tool)
    (hx : extract_json_payload decodeUtf8 parseJson files used_filenames
      = some (payload, filename))
    (ht : list_session_tools (effective_sessions client)
      = [(server_name, session, tool)])
    (hs : payload_matches_schema
      (match tool.inputSchema with | none => [] | some s => s) payload = true) :
    (session.call_tool tool.name payload = none →
      (maybe_auto_call_tool decodeUtf8 parseJson client files used_filenames).outcome
        = .raised
      ∧ (maybe_auto_call_tool decodeUtf8 parseJson client files used_filenames).used
        = used_filenames)
    ∧ (∀ result, session.call_tool tool.name payload = some result →
      (maybe_auto_call_tool decodeUtf8 parseJson client files used_filenames).outcome
        = .success (format_tool_result result)
      ∧ (maybe_auto_call_tool decodeUtf8 parseJson client files used_filenames).used
        = used_filenames.map (fun u => u.insert filename)) := by
  constructor
  · intro hc
    constructor <;>
      simp [maybe_auto_call_tool, auto_call_with_payload, hx, ht, hs, hc]
  · intro result hc
    constructor <;>
      simp [maybe_auto_call_tool, auto_call_with_payload, hx, ht, hs, hc]

theorem auto_invocation_failure_propagates_witness :
    (maybe_auto_call_tool demoDecode demoParse demoFailClient [demoAttachment]
      (some [])).outcome = .raised
    ∧ (maybe_auto_call_tool demoDecode demoParse demoFailClient [demoAttachment]
      (some [])).used = some [] :=
  (auto_invocation_failure_propagates demoDecode demoParse demoFailClient
    [demoAttachment] (some []) demoPayload "a.json" "skills" sessionOneToolFail
    demoTool rfl rfl rfl).1 rfl

/-- C6: the session registry is populated (with every configured server)
only when the active registry is empty and a payload exists, and this is
the only registry mutation of the run; and a session whose tool-list
request fails contributes zero tools while enumeration of the remaining
sessions proceeds unchanged. -/
theorem enumerator_registry_and_isolation
    (decodeUtf8 : List Nat → Option String) (parseJson : String → Option JValue)
    (client : Client) (files : List Attachment)
    (used_filenames : Option (List String)) :
    (client.active_sessions ≠ [] →
      (maybe_auto_call_tool decodeUtf8 parseJson client files used_filenames).client
        = client)
    ∧ (client.active_sessions = [] →
      ∀ payload filename,
        extract_json_payload decodeUtf8 parseJson files used_filenames
          = some (payload, filename) →
        (maybe_auto_call_tool decodeUtf8 parseJson client files used_filenames).client
          = { client with active_sessions := client.all_sessions })
    ∧ (Event.createSessions
        ∈ (maybe_auto_call_tool decodeUtf8 parseJson client files used_filenames).trace
      ↔ (client.active_sessions = []
        ∧ extract_json_payload decodeUtf8 parseJson files used_filenames ≠ none))
    ∧ (∀ (pre post : List (String × Session)) (server : String) (s : Session),
        s.list_tools = none →
        list_session_tools (pre ++ (server, s) :: post)
          = list_session_tools (pre ++ post)) := by
  refine ⟨?_, ?_, ?_, ?_⟩
  · intro hne
    cases hx : extract_json_payload decodeUtf8 parseJson files used_filenames with
    | none => simp [maybe_auto_call_tool, hx]
    | some pf =>
      obtain ⟨payload, filename⟩ := pf
      have hemp : client.active_sessions.isEmpty = false := by
        simp [List.isEmpty_iff, hne]
      simp only [maybe_auto_call_tool, hx]
      rw [(auto_call_with_payload_frame client files used_filenames payload
        filename).2.1, hemp]
      simp
  · intro he payload filename hx
    simp only [maybe_auto_call_tool, hx]
    rw [(auto_call_with_payload_frame client files used_filenames payload
      filename).2.1]
    simp [he]
  · cases hx : extract_json_payload decodeUtf8 parseJson files used_filenames with
    | none => simp [maybe_auto_call_tool, hx]
    | some pf =>
      obtain ⟨payload, filename⟩ := pf
      simp only [maybe_auto_call_tool, hx]
      rw [(auto_call_with_payload_frame client files used_filenames payload
        filename).2.2.2.2.2.1]
      simp [List.isEmpty_iff]
  · intro pre post server s hfail
    simp [list_session_tools, hfail]

theorem enumerator_registry_and_isolation_witness :
    (maybe_auto_call_tool demoDecode demoParse demoFailClient [demoAttachment]
      (some [])).client = demoFailClient :=
  (enumerator_registry_and_isolation demoDecode demoParse demoFailClient
    [demoAttachment] (some [])).1 (by simp [demoFailClient])

/-- C10: whenever the orchestrator abstains it leaves both the attachment
list and the used-filename set unchanged; and when no eligible payload
exists the run performs no session activity at all: it returns the
abstention with unchanged state and an empty action trace. -/
theorem auto_abstain_frame
    (decodeUtf8 : List Nat → Option String) (parseJson : String → Option JValue)
    (client : Client) (files : List Attachment)
    (used_filenames : Option (List String)) :
    ((maybe_auto_call_tool decodeUtf8 parseJson client files used_filenames).outcome
        = .abstain →
      (maybe_auto_call_tool decodeUtf8 parseJson client files used_filenames).used
        = used_filenames
      ∧ (maybe_auto_call_tool decodeUtf8 parseJson client files used_filenames).files
        = files)
    ∧ (extract_json_payload decodeUtf8 parseJson files used_filenames = none →
      maybe_auto_call_tool decodeUtf8 parseJson client files used_filenames
        = ⟨.abstain, client, files, used_filenames, []⟩) := by
  constructor
  · intro h
    cases hx : extract_json_payload decodeUtf8 parseJson files used_filenames with
    | none => simp [maybe_auto_call_tool, hx]
    | some pf =>
      obtain ⟨payload, filename⟩ := pf
      simp only [maybe_auto_call_tool, hx] at h ⊢
      exact ⟨(auto_call_with_payload_frame client files used_filenames payload
          filename).2.2.1 h,
        (auto_call_with_payload_frame client files used_filenames payload
          filename).1⟩
  · intro hx
    simp [maybe_auto_call_tool, hx]

theorem auto_abstain_frame_witness :
    maybe_auto_call_tool demoDecode demoParse demoNoToolClient [] (some [])
      = ⟨.abstain, demoNoToolClient, [], some [], []⟩ :=
  (auto_abstain_frame demoDecode demoParse demoNoToolClient [] (some [])).2 rfl

/-- Interactive session in which the fast path already consumed `a.json`:
it is attached and its filename is recorded in the used set. -/
def demoUsedState : InteractiveState :=
  { attached_files := [demoAttachment], auto_pass_used := ["a.json"] }

/-- C2 counterexample: in a session whose used set holds `a.json`, the
`/clear` command does not empty the used set, and re-attaching `a.json`
afterwards leaves it ineligible (extraction still abstains), although the
very same attachment is eligible when the used set does not block it —
refuting "reset by an explicit clear of attachments". -/
theorem clear_does_not_reset_used :
    (clear_command demoUsedState).auto_pass_used ≠ []
    ∧ extract_json_payload demoDecode demoParse
        (attach_command (clear_command demoUsedState) demoAttachment).attached_files
        (some (attach_command (clear_command demoUsedState) demoAttachment).auto_pass_used)
      = none
    ∧ extract_json_payload demoDecode demoParse [demoAttachment] none
      = some (demoPayload, "a.json") := by
  refine ⟨?_, rfl, rfl⟩
  simp [clear_command, demoUsedState]

/-- C2 amended: the used-filename set grows only via successful
auto-invocations — the orchestrator leaves it unchanged on abstention and
on invocation failure, and at most inserts the extracted filename — while
`/clear` resets only the attachment list and `/attach` only appends, so
the used set survives both and a previously consumed filename re-attached
after `/clear` stays ineligible for the fast path. -/
theorem used_set_growth_and_clear
    (decodeUtf8 : List Nat → Option String) (parseJson : String → Option JValue)
    (client : Client) (st : InteractiveState) (f : Attachment) :
    (clear_command st).attached_files = []
    ∧ (clear_command st).auto_pass_used = st.auto_pass_used
    ∧ (attach_command st f).auto_pass_used = st.auto_pass_used
    ∧ (∀ files used_filenames,
        (maybe_auto_call_tool decodeUtf8 parseJson client files used_filenames).outcome
            = .abstain
          ∨ (maybe_auto_call_tool decodeUtf8 parseJson client files used_filenames).outcome
            = .raised →
        (maybe_auto_call_tool decodeUtf8 parseJson client files used_filenames).used
          = used_filenames)
    ∧ (∀ files used_filenames payload filename,
        extract_json_payload decodeUtf8 parseJson files used_filenames
          = some (payload, filename) →
        (maybe_auto_call_tool decodeUtf8 parseJson client files used_filenames).used
            = used_filenames
          ∨ (maybe_auto_call_tool decodeUtf8 parseJson client files used_filenames).used
            = used_filenames.map (fun u => u.insert filename))
    ∧ extract_json_payload decodeUtf8 parseJson
        (attach_command (clear_command demoUsedState) demoAttachment).attached_files
        (some (attach_command (clear_command demoUsedState) demoAttachment).auto_pass_used)
      = none := by
  refine ⟨rfl, rfl, rfl, ?_, ?_, rfl⟩
  · intro files used h
    cases hx : extract_json_payload decodeUtf8 parseJson files used with
    | none => simp [maybe_auto_call_tool, hx]
    | some pf =>
      obtain ⟨payload, filename⟩ := pf
      simp only [maybe_auto_call_tool, hx] at h ⊢
      rcases h with h | h
      · exact (auto_call_with_payload_frame client files used payload
          filename).2.2.1 h
      · exact (auto_call_with_payload_frame client files used payload
          filename).2.2.2.1 h
  · intro files used payload filename hx
    simp only [maybe_auto_call_tool, hx]
    exact (auto_call_with_payload_frame client files used payload
      filename).2.2.2.2.1

theorem used_set_growth_and_clear_witness :
    (maybe_auto_call_tool demoDecode demoParse demoFailClient [demoAttachment]
      (some ["x"])).used = some ["x"] :=
  (used_set_growth_and_clear demoDecode demoParse demoFailClient demoUsedState
    demoAttachment).2.2.2.1 [demoAttachment] (some ["x"]) (Or.inr rfl)

end McpAgent
